import Mathlib

/-!
Verification development for the silkrpc transaction-tracing path.

The definitions below are shallow embeddings of the C++ sources under
`src/silkrpc`.  Machine integers are modelled as `Nat` (addresses are
160-bit quantities, storage keys and hashes 256-bit quantities; the
embeddings reduce modulo the width exactly where the source converts).
Fallible code returns `Option`/`Except`.  Functions whose implementation
file is not part of the source tree are modelled from the specification
and are marked as such in their doc comments.
-/

namespace Silkrpc

/-! ## Access-list tracer (src/silkrpc/core/evm_access_list_tracer.cpp) -/

/-- One entry of an access list: an account plus its recorded storage keys
(`silkworm::AccessListEntry`). -/
structure AccessListEntry where
  account : Nat
  storage_keys : List Nat
  deriving DecidableEq

/-- Embeds `AccessList`, a vector of entries in the source. -/
abbrev AccessList := List AccessListEntry

/-- Embeds `AccessListTracer::is_storage_opcode`: name comparison against the
evmone instruction-name table entries for SLOAD/SSTORE. -/
def is_storage_opcode (opcode_name : String) : Bool :=
  opcode_name = "SLOAD" || opcode_name = "SSTORE"

/-- Embeds `AccessListTracer::is_contract_opcode`. -/
def is_contract_opcode (opcode_name : String) : Bool :=
  opcode_name = "EXTCODECOPY" || opcode_name = "EXTCODEHASH" || opcode_name = "EXTCODESIZE" ||
  opcode_name = "BALANCE" || opcode_name = "SELFDESTRUCT"

/-- Embeds `AccessListTracer::is_call_opcode`. -/
def is_call_opcode (opcode_name : String) : Bool :=
  opcode_name = "DELEGATECALL" || opcode_name = "CALL" || opcode_name = "STATICCALL" ||
  opcode_name = "CALLCODE"

/-- Tracer state: the transaction sender (`from_` in the source), the
transaction recipient (`to_`), and the collected access list. -/
structure AccessListTracer where
  fromA : Nat
  toA : Nat
  access_list : AccessList
  deriving DecidableEq

/-- Embeds `AccessListTracer::exclude`: only `from_` and `to_` are excluded; the
precompiled-contract check is commented out in the source
(`// return (address == from_ || address == to_ || is_precompiled(address));`). -/
def exclude (t : AccessListTracer) (address : Nat) : Bool :=
  address = t.fromA || address = t.toA

/-- Embeds `AccessListTracer::add_storage`: scan the list for the first entry with
the given account; if found, append the key unless already present, else
append a fresh entry at the end. -/
def add_storage (acl : AccessList) (address : Nat) (storage : Nat) : AccessList :=
  match acl with
  | [] => [⟨address, [storage]⟩]
  | e :: rest =>
    if e.account = address then
      if storage ∈ e.storage_keys then e :: rest
      else ⟨e.account, e.storage_keys ++ [storage]⟩ :: rest
    else e :: add_storage rest address storage

/-- Embeds `AccessListTracer::add_address`: append a fresh entry (with no storage
keys) unless the account is already present. -/
def add_address (acl : AccessList) (address : Nat) : AccessList :=
  if acl.any (fun e => e.account = address) then acl else acl ++ [⟨address, []⟩]

/-- Embeds `AccessListTracer::on_instruction_start`.  The stack is modelled with
the top element first, so `stack_top[0]` is `stack.headD 0` and
`stack_top[-1]` is `stack.getD 1 0`.  The source converts `stack_top[0]`
to a 32-byte word on the storage path (`bytes32_from_hex`) and to a
20-byte address on the other paths (`address_from_hex_string`), modelled
as reduction modulo `2^256` and `2^160`. -/
def on_instruction_start (t : AccessListTracer) (opcode_name : String)
    (stack : List Nat) (stack_height : Nat) (recipient : Nat) : AccessListTracer :=
  if is_storage_opcode opcode_name ∧ stack_height ≥ 1 then
    { t with access_list := add_storage t.access_list recipient (stack.headD 0 % 2 ^ 256) }
  else if is_contract_opcode opcode_name ∧ stack_height ≥ 1 then
    if exclude t (stack.headD 0 % 2 ^ 160) then t
    else { t with access_list := add_address t.access_list (stack.headD 0 % 2 ^ 160) }
  else if is_call_opcode opcode_name ∧ stack_height ≥ 5 then
    if exclude t (stack.getD 1 0 % 2 ^ 160) then t
    else { t with access_list := add_address t.access_list (stack.getD 1 0 % 2 ^ 160) }
  else t

/-- One traced instruction, as fed to `on_instruction_start`. -/
structure InstrEvent where
  opcode_name : String
  stack : List Nat
  stack_height : Nat
  recipient : Nat

/-- Run the tracer over a sequence of instruction events. -/
def run_tracer (t : AccessListTracer) (events : List InstrEvent) : AccessListTracer :=
  events.foldl (fun s ev => on_instruction_start s ev.opcode_name ev.stack ev.stack_height ev.recipient) t

/-- The accounts recorded in an access list. -/
def accounts (acl : AccessList) : List Nat := acl.map AccessListEntry.account

/-- Deduplication invariant of the collected access list: accounts are
pairwise distinct and each entry's storage keys are pairwise distinct. -/
def DedupInvariant (acl : AccessList) : Prop :=
  (accounts acl).Nodup ∧ ∀ e ∈ acl, e.storage_keys.Nodup

/-- Embeds the inner storage scan of `AccessListTracer::compare`.  The `match_storage`
flag is declared once per matched account and is never reset inside the
key loop, so after the first found key it stays `true`; the embedding
carries the flag explicitly. -/
def find_storage (flag : Bool) (keys1 keys2 : List Nat) : Bool :=
  match keys1 with
  | [] => true
  | k :: rest =>
    let flag1 := flag || keys2.contains k
    if flag1 then find_storage flag1 rest keys2 else false

/-- Embeds the inner account scan of `AccessListTracer::compare`: the `j` loop breaks at
the first entry of `acl2` whose account matches, then checks the key
counts and runs the storage scan; `none` models falling through the loop
with `match_address == false`. -/
def match_entry (e1 : AccessListEntry) : AccessList → Option Bool
  | [] => none
  | e2 :: rest =>
    if e2.account = e1.account then
      some ((e2.storage_keys.length = e1.storage_keys.length : Bool) &&
        find_storage false e1.storage_keys e2.storage_keys)
    else match_entry e1 rest

/-- Embeds `AccessListTracer::compare`. -/
def compare (acl1 acl2 : AccessList) : Bool :=
  if acl1.length ≠ acl2.length then false
  else acl1.all (fun e1 => (match_entry e1 acl2).getD false)

lemma accounts_cons (e : AccessListEntry) (rest : AccessList) :
    accounts (e :: rest) = e.account :: accounts rest := rfl

lemma accounts_add_storage (acl : AccessList) (a s : Nat) :
    accounts (add_storage acl a s) =
      if a ∈ accounts acl then accounts acl else accounts acl ++ [a] := by
  induction acl with
  | nil => simp [add_storage, accounts]
  | cons e rest ih =>
    by_cases h : e.account = a
    · have hmem : a ∈ accounts (e :: rest) := by
        rw [accounts_cons, ← h]; exact List.mem_cons_self _ _
      rw [if_pos hmem]
      by_cases hs : s ∈ e.storage_keys
      · simp [add_storage, h, hs]
      · simp [add_storage, h, hs, accounts_cons]
    · have hne : a ≠ e.account := fun hh => h hh.symm
      have hstep : add_storage (e :: rest) a s = e :: add_storage rest a s := by
        simp [add_storage, h]
      rw [hstep, accounts_cons, ih, accounts_cons]
      by_cases hm : a ∈ accounts rest
      · rw [if_pos hm, if_pos (List.mem_cons_of_mem _ hm)]
      · rw [if_neg hm, if_neg (by simp [List.mem_cons, hne, hm])]
        simp

lemma keys_add_storage (acl : AccessList) (a s : Nat)
    (h : ∀ e ∈ acl, e.storage_keys.Nodup) :
    ∀ e ∈ add_storage acl a s, e.storage_keys.Nodup := by
  induction acl with
  | nil =>
    intro e he
    simp [add_storage] at he
    subst he; simp
  | cons f rest ih =>
    intro e he
    by_cases hf : f.account = a
    · by_cases hs : s ∈ f.storage_keys
      · simp only [add_storage, if_pos hf, if_pos hs] at he
        exact h e he
      · simp only [add_storage, if_pos hf, if_neg hs, List.mem_cons] at he
        rcases he with he | he
        · subst he
          have hnd : f.storage_keys.Nodup := h f (List.mem_cons_self f rest)
          simp [List.nodup_append, hnd, List.disjoint_singleton, hs]
        · exact h e (List.mem_cons_of_mem f he)
    · simp only [add_storage, if_neg hf, List.mem_cons] at he
      rcases he with he | he
      · subst he; exact h e (List.mem_cons_self e rest)
      · exact ih (fun x hx => h x (List.mem_cons_of_mem f hx)) e he

lemma dedup_add_storage (acl : AccessList) (a s : Nat)
    (h : DedupInvariant acl) : DedupInvariant (add_storage acl a s) := by
  refine ⟨?_, keys_add_storage acl a s h.2⟩
  rw [accounts_add_storage]
  by_cases hm : a ∈ accounts acl
  · simpa [hm] using h.1
  · simp [hm, List.nodup_append, h.1]

lemma any_account_eq (acl : AccessList) (a : Nat) :
    (acl.any fun e => e.account = a) = true ↔ a ∈ accounts acl := by
  simp [List.any_eq_true, accounts, List.mem_map]

lemma accounts_add_address (acl : AccessList) (a : Nat) :
    accounts (add_address acl a) =
      if a ∈ accounts acl then accounts acl else accounts acl ++ [a] := by
  by_cases hm : a ∈ accounts acl
  · simp [add_address, (any_account_eq acl a).mpr hm, hm]
  · have hfalse : (acl.any fun e => e.account = a) = false := by
      cases hc : acl.any fun e => e.account = a
      · rfl
      · exact absurd ((any_account_eq acl a).mp hc) hm
    rw [if_neg hm]
    simp [add_address, hfalse, accounts]

lemma dedup_add_address (acl : AccessList) (a : Nat)
    (h : DedupInvariant acl) : DedupInvariant (add_address acl a) := by
  constructor
  · rw [accounts_add_address]
    by_cases hm : a ∈ accounts acl
    · simpa [hm] using h.1
    · simp [hm, List.nodup_append, h.1]
  · intro e he
    unfold add_address at he
    by_cases hc : (acl.any fun x => x.account = a) = true
    · rw [if_pos hc] at he
      exact h.2 e he
    · rw [if_neg hc] at he
      rcases List.mem_append.mp he with he | he
      · exact h.2 e he
      · simp at he; subst he; simp

lemma dedup_on_instruction_start (t : AccessListTracer) (opcode_name : String)
    (stack : List Nat) (stack_height : Nat) (recipient : Nat)
    (h : DedupInvariant t.access_list) :
    DedupInvariant (on_instruction_start t opcode_name stack stack_height recipient).access_list := by
  unfold on_instruction_start
  by_cases h1 : is_storage_opcode opcode_name ∧ stack_height ≥ 1
  · rw [if_pos h1]; exact dedup_add_storage _ _ _ h
  · rw [if_neg h1]
    by_cases h2 : is_contract_opcode opcode_name ∧ stack_height ≥ 1
    · rw [if_pos h2]
      by_cases h3 : exclude t (stack.headD 0 % 2 ^ 160) = true
      · rw [if_pos h3]; exact h
      · rw [if_neg h3]; exact dedup_add_address _ _ h
    · rw [if_neg h2]
      by_cases h4 : is_call_opcode opcode_name ∧ stack_height ≥ 5
      · rw [if_pos h4]
        by_cases h5 : exclude t (stack.getD 1 0 % 2 ^ 160) = true
        · rw [if_pos h5]; exact h
        · rw [if_neg h5]; exact dedup_add_address _ _ h
      · rw [if_neg h4]; exact h

lemma dedup_run_tracer (t : AccessListTracer) (events : List InstrEvent)
    (h : DedupInvariant t.access_list) :
    DedupInvariant (run_tracer t events).access_list := by
  induction events generalizing t with
  | nil => exact h
  | cons ev rest ih =>
    exact ih _ (dedup_on_instruction_start t ev.opcode_name ev.stack ev.stack_height ev.recipient h)

lemma contract_not_storage (opcode_name : String)
    (h : is_contract_opcode opcode_name = true) : is_storage_opcode opcode_name = false := by
  simp only [is_contract_opcode, Bool.or_eq_true, decide_eq_true_eq] at h
  rcases h with (((h | h) | h) | h) | h <;> subst h <;> rfl

lemma call_not_storage (opcode_name : String)
    (h : is_call_opcode opcode_name = true) : is_storage_opcode opcode_name = false := by
  simp only [is_call_opcode, Bool.or_eq_true, decide_eq_true_eq] at h
  rcases h with ((h | h) | h) | h <;> subst h <;> rfl

lemma call_not_contract (opcode_name : String)
    (h : is_call_opcode opcode_name = true) : is_contract_opcode opcode_name = false := by
  simp only [is_call_opcode, Bool.or_eq_true, decide_eq_true_eq] at h
  rcases h with ((h | h) | h) | h <;> subst h <;> rfl

lemma exclude_eq_true (t : AccessListTracer) (address : Nat)
    (h : address = t.fromA ∨ address = t.toA) : exclude t address = true := by
  rcases h with h | h <;> simp [exclude, h]

lemma find_storage_of_subset (flag : Bool) (keys1 keys2 : List Nat)
    (h : ∀ k ∈ keys1, k ∈ keys2) : find_storage flag keys1 keys2 = true := by
  induction keys1 generalizing flag with
  | nil => rfl
  | cons k rest ih =>
    have hk : keys2.contains k = true := by
      simpa using h k (List.mem_cons_self _ _)
    simp only [find_storage, hk, Bool.or_true, if_true]
    exact ih true (fun x hx => h x (List.mem_cons_of_mem _ hx))

lemma match_entry_first (e1 : AccessListEntry) (acl2 : AccessList) (e2 : AccessListEntry)
    (hnd : (accounts acl2).Nodup) (he2 : e2 ∈ acl2) (hacc : e2.account = e1.account) :
    match_entry e1 acl2 = some ((e2.storage_keys.length = e1.storage_keys.length : Bool) &&
      find_storage false e1.storage_keys e2.storage_keys) := by
  induction acl2 with
  | nil => cases he2
  | cons f rest ih =>
    rcases List.mem_cons.mp he2 with rfl | hmem
    · simp [match_entry, hacc]
    · rw [accounts_cons] at hnd
      by_cases hf : f.account = e1.account
      · exfalso
        have hin : e2.account ∈ accounts rest := List.mem_map.mpr ⟨e2, hmem, rfl⟩
        have hnotin := (List.nodup_cons.mp hnd).1
        rw [hf, ← hacc] at hnotin
        exact hnotin hin
      · simp only [match_entry, if_neg hf]
        exact ih (List.nodup_cons.mp hnd).2 hmem

/-- C1: the claim as stated is false on the code.  The SLOAD/SSTORE path of
`on_instruction_start` records the current recipient via `add_storage`
without consulting `exclude`, so an `SLOAD` executed inside the
transaction's `to` contract (here address `2`, with `from = 1`) puts the
`to` address into the access list as a top-level entry. -/
theorem C1_counterexample :
    (run_tracer ⟨1, 2, []⟩ [⟨"SLOAD", [5], 1, 2⟩]).access_list = [⟨2, [5]⟩] ∧
    2 ∈ accounts (run_tracer ⟨1, 2, []⟩ [⟨"SLOAD", [5], 1, 2⟩]).access_list := by
  constructor <;> decide

/-- C1 (amended): for every traced transaction, addresses recorded through
the contract-opcode (EXTCODECOPY/EXTCODEHASH/EXTCODESIZE/BALANCE/SELFDESTRUCT)
and call-opcode (CALL/DELEGATECALL/STATICCALL/CALLCODE) paths are never the
transaction's `from` or `to` (the tracer state is unchanged when the
extracted address is excluded); the storage path records the current
recipient unconditionally and no precompiled-address exclusion is
performed; within the list, addresses are deduplicated and the storage
keys recorded under each address are deduplicated. -/
theorem C1_tracer_dedup_and_exclusion :
    (∀ (fromA toA : Nat) (events : List InstrEvent),
      DedupInvariant (run_tracer ⟨fromA, toA, []⟩ events).access_list) ∧
    (∀ (t : AccessListTracer) (opcode_name : String) (stack : List Nat)
        (stack_height recipient : Nat),
      is_contract_opcode opcode_name = true → stack_height ≥ 1 →
      (stack.headD 0 % 2 ^ 160 = t.fromA ∨ stack.headD 0 % 2 ^ 160 = t.toA) →
      on_instruction_start t opcode_name stack stack_height recipient = t) ∧
    (∀ (t : AccessListTracer) (opcode_name : String) (stack : List Nat)
        (stack_height recipient : Nat),
      is_call_opcode opcode_name = true → stack_height ≥ 5 →
      (stack.getD 1 0 % 2 ^ 160 = t.fromA ∨ stack.getD 1 0 % 2 ^ 160 = t.toA) →
      on_instruction_start t opcode_name stack stack_height recipient = t) := by
  refine ⟨?_, ?_, ?_⟩
  · intro fromA toA events
    exact dedup_run_tracer _ events (by simp [DedupInvariant, accounts])
  · intro t opcode_name stack stack_height recipient hc h1 hex
    have hs := contract_not_storage opcode_name hc
    unfold on_instruction_start
    rw [if_neg (by simp [hs]), if_pos ⟨hc, h1⟩, if_pos (exclude_eq_true t _ hex)]
  · intro t opcode_name stack stack_height recipient hc h5 hex
    have hs := call_not_storage opcode_name hc
    have hk := call_not_contract opcode_name hc
    unfold on_instruction_start
    rw [if_neg (by simp [hs]), if_neg (by simp [hk]), if_pos ⟨hc, h5⟩,
      if_pos (exclude_eq_true t _ hex)]

/-- Witness for `C1_tracer_dedup_and_exclusion` at concrete inputs: a trace
with a repeated SLOAD and a BALANCE keeps the dedup invariant; a BALANCE
naming the `to` address and a CALL naming the `from` address leave the
tracer unchanged. -/
theorem C1_tracer_dedup_and_exclusion_witness :
    DedupInvariant (run_tracer ⟨1, 2, []⟩
      [⟨"SLOAD", [5], 1, 7⟩, ⟨"SLOAD", [5], 1, 7⟩, ⟨"BALANCE", [9], 1, 7⟩]).access_list ∧
    on_instruction_start ⟨1, 2, []⟩ "BALANCE" [2] 1 7 = ⟨1, 2, []⟩ ∧
    on_instruction_start ⟨1, 2, []⟩ "CALL" [0, 1, 0, 0, 0] 5 7 = ⟨1, 2, []⟩ :=
  ⟨C1_tracer_dedup_and_exclusion.1 1 2 _,
   C1_tracer_dedup_and_exclusion.2.1 ⟨1, 2, []⟩ "BALANCE" [2] 1 7 (by decide) (by decide)
     (Or.inr (by decide)),
   C1_tracer_dedup_and_exclusion.2.2 ⟨1, 2, []⟩ "CALL" [0, 1, 0, 0, 0] 5 7 (by decide) (by decide)
     (Or.inl (by decide))⟩

/-- C10: the claim as stated is false on the code.  Because the
`match_storage` flag in `AccessListTracer::compare` is never reset between
storage keys, `compare` accepts `[{1, [10, 30]}]` against `[{1, [20, 10]}]`
although the storage-key sets differ, and it is not symmetric: swapping the
arguments yields `false`. -/
theorem C10_compare_counterexample :
    compare [⟨1, [10, 30]⟩] [⟨1, [20, 10]⟩] = true ∧
    compare [⟨1, [20, 10]⟩] [⟨1, [10, 30]⟩] = false := by
  constructor <;> decide

/-- C10 (amended): `compare acl1 acl2` returns `true` whenever the two lists
have the same length, the accounts of `acl2` are pairwise distinct, and
every entry of `acl1` has an account-matching entry in `acl2` with the same
number of storage keys containing all of its storage keys.  (The converse
fails and `compare` is not symmetric, as the counterexample shows: once one
storage key of an entry is found, the remaining keys are not checked.) -/
theorem C10_compare_sound (acl1 acl2 : AccessList)
    (hlen : acl1.length = acl2.length)
    (hnd : (accounts acl2).Nodup)
    (hmatch : ∀ e1 ∈ acl1, ∃ e2 ∈ acl2, e2.account = e1.account ∧
      e2.storage_keys.length = e1.storage_keys.length ∧
      ∀ k ∈ e1.storage_keys, k ∈ e2.storage_keys) :
    compare acl1 acl2 = true := by
  unfold compare
  rw [if_neg (by simp [hlen])]
  rw [List.all_eq_true]
  intro e1 he1
  obtain ⟨e2, he2, hacc, hklen, hsub⟩ := hmatch e1 he1
  rw [match_entry_first e1 acl2 e2 hnd he2 hacc]
  simp [Option.getD, hklen, find_storage_of_subset false e1.storage_keys e2.storage_keys hsub]

/-- Witness for `C10_compare_sound`: two permuted access lists compare equal. -/
theorem C10_compare_sound_witness :
    compare [⟨1, [10, 30]⟩, ⟨4, []⟩] [⟨4, []⟩, ⟨1, [30, 10]⟩] = true :=
  C10_compare_sound _ _ (by decide) (by decide) (by decide)

/-! ## Trace API dispatcher (src/silkrpc/commands/trace_api.cpp)

Trace items (the JSON frames) are modelled abstractly as `Nat` values; the
handlers never inspect them. -/

/-- A JSON-RPC reply: `content p` embeds `make_json_content(id)` when
`p = none` and `make_json_content(id, r)` when `p = some r`; `error`
embeds `make_json_error(id, code, message)`. -/
inductive Reply (α : Type) where
  | content (payload : Option α)
  | error (code : Int) (msg : String)
  deriving DecidableEq

/-- Result of a handler's `try` block: `value` is the reply assigned when
the block runs to completion, `fault msg` embeds a thrown `std::exception`
whose `what()` is `msg`, and `unknownFault` embeds any other thrown
object (the `catch (...)` case). -/
inductive ServeResult (α : Type) where
  | value (rep : Reply α)
  | fault (msg : String)
  | unknownFault

/-- Embeds the catch structure shared verbatim by `handle_trace_call`,
`handle_trace_call_many`, `handle_trace_raw_transaction`,
`handle_trace_replay_block_transactions`, `handle_trace_replay_transaction`,
`handle_trace_block` and `handle_trace_filter`:
`catch (const std::exception& e) { reply = make_json_error(request["id"], 100, e.what()); }`
and `catch (...) { reply = make_json_error(request["id"], 100, "unexpected exception"); }`. -/
def standard_handler_reply {α : Type} (r : ServeResult α) : Reply α :=
  match r with
  | .value rep => rep
  | .fault msg => .error 100 msg
  | .unknownFault => .error 100 "unexpected exception"

/-- Embeds the catch structure of `handle_trace_get` and
`handle_trace_transaction`, whose first handler is
`catch (const std::exception& e) { reply = make_json_content(request["id"]); }`:
a standard-exception fault yields an empty success reply. -/
def quiet_handler_reply {α : Type} (r : ServeResult α) : Reply α :=
  match r with
  | .value rep => rep
  | .fault _ => .content none
  | .unknownFault => .error 100 "unexpected exception"

/-- Embeds the body of `TraceRpcApi::handle_trace_get` after parameter
parsing: `indices` are the decoded hex indices, `tx_lookup` is the result
of `read_transaction_by_hash` composed with `trace_transaction` (`none`
when the transaction is not found, otherwise the flat trace list).  The
source reads `indices[0]`, which is well-defined for the single-index
case the claim describes (an empty `indices` vector is out of range in
the C++ as well). -/
def handle_trace_get (indices : List Nat) (tx_lookup : Option (List Nat)) : Reply Nat :=
  if indices.length > 1 then .content none
  else
    match tx_lookup with
    | none => .content none
    | some result =>
      if result.length > indices.headD 0 + 1 then
        .content (some (result.getD (indices.headD 0 + 1) 0))
      else .content none

/-- C4: `trace_get` returns empty content for more than one index; with a
single index it returns the entry of the flat trace list at position
`first_index + 1`, or empty content when that entry is absent or the
transaction is not found. -/
theorem C4_trace_get (indices : List Nat) (tx_lookup : Option (List Nat))
    (first_index : Nat) (result : List Nat) :
    (indices.length > 1 → handle_trace_get indices tx_lookup = .content none) ∧
    (handle_trace_get [first_index] none = .content none) ∧
    (∀ h : first_index + 1 < result.length,
      handle_trace_get [first_index] (some result) =
        .content (some (result.get ⟨first_index + 1, h⟩))) ∧
    (result.length ≤ first_index + 1 →
      handle_trace_get [first_index] (some result) = .content none) := by
  refine ⟨?_, ?_, ?_, ?_⟩
  · intro h
    unfold handle_trace_get
    rw [if_pos h]
  · simp [handle_trace_get]
  · intro h
    simp only [handle_trace_get, List.length_cons, List.length_nil, List.headD]
    rw [if_neg (by norm_num), if_pos (by simpa using h)]
    rw [List.getD_eq_get _ _ h]
  · intro h
    simp only [handle_trace_get, List.length_cons, List.length_nil, List.headD]
    rw [if_neg (by norm_num), if_neg (by omega)]

/-- Witness for `C4_trace_get` at the concrete inputs of the four cases. -/
theorem C4_trace_get_witness :
    handle_trace_get [0, 1] (some [10, 20, 30]) = .content none ∧
    handle_trace_get [0] none = .content none ∧
    handle_trace_get [0] (some [10, 20, 30]) = .content (some 20) ∧
    handle_trace_get [1] (some [10, 20]) = .content none :=
  ⟨(C4_trace_get [0, 1] (some [10, 20, 30]) 0 []).1 (by decide),
   (C4_trace_get [] none 0 []).2.1,
   (C4_trace_get [] none 0 [10, 20, 30]).2.2.1 (by decide),
   (C4_trace_get [] none 1 [10, 20]).2.2.2 (by decide)⟩

/-- C9: the claim as stated is false on the code.  In
`handle_trace_get` and `handle_trace_transaction` the first catch handler
replies with empty success content (`make_json_content(request["id"])`)
when a `std::exception` is raised while serving the request, instead of a
code-100 error reply. -/
theorem C9_counterexample :
    quiet_handler_reply (ServeResult.fault "boom" : ServeResult Nat) = Reply.content none ∧
    quiet_handler_reply (ServeResult.fault "boom" : ServeResult Nat) ≠ Reply.error 100 "boom" := by
  constructor
  · rfl
  · decide

/-- C9 (amended): for `trace_call`, `trace_callMany`, `trace_rawTransaction`,
`trace_replayBlockTransactions`, `trace_replayTransaction`, `trace_block`
and `trace_filter`, a standard-exception fault raised while serving the
request produces a JSON-RPC error reply with code 100 and the fault's
message, and any other fault produces code 100 with message
"unexpected exception"; `trace_get` and `trace_transaction` instead reply
with empty success content on a standard-exception fault, reserving the
code-100 reply for non-standard faults. -/
theorem C9_fault_replies :
    (∀ (α : Type) (msg : String),
      standard_handler_reply (ServeResult.fault msg : ServeResult α) = Reply.error 100 msg) ∧
    (∀ (α : Type),
      standard_handler_reply (ServeResult.unknownFault : ServeResult α) =
        Reply.error 100 "unexpected exception") ∧
    (∀ (α : Type) (msg : String),
      quiet_handler_reply (ServeResult.fault msg : ServeResult α) = Reply.content none) ∧
    (∀ (α : Type),
      quiet_handler_reply (ServeResult.unknownFault : ServeResult α) =
        Reply.error 100 "unexpected exception") :=
  ⟨fun _ _ => rfl, fun _ => rfl, fun _ _ => rfl, fun _ => rfl⟩

/-! ## EVM executor

The implementation file of `EVMExecutor` is not under `src/` (only its test,
`src/silkrpc/core/evm_executor_test.cpp`, is), so the definitions of this
section are modelled from the specification, with the concrete strings and
behaviours pinned by the expectations of that test file. -/

/-- Modelled from the spec: lowercase hexadecimal digit, used to print addresses in pre-check messages. -/
def hexDigit (n : Nat) : Char :=
  if n < 10 then Char.ofNat (48 + n) else Char.ofNat (87 + n)

/-- Modelled from the spec: fixed-width lowercase hexadecimal rendering,
most significant digit first. -/
def hexString : Nat → Nat → String
  | 0, _ => ""
  | digits + 1, n => hexString digits (n / 16) ++ String.singleton (hexDigit (n % 16))

/-- Modelled from the spec: a 20-byte address as the pre-check messages
print it (`0x` followed by 40 lowercase hex digits). -/
def address_to_hex (a : Nat) : String := "0x" ++ hexString 40 a

/-- Modelled from the spec: the closed EVM status-to-message mapping of
§4.6 (evmc status codes 0–16; success maps to no message, modelled as the
empty string; any other status maps to "unknown error code"). -/
def short_error_message (status_code : Int) : String :=
  if status_code = 0 then ""
  else if status_code = 1 then "execution failed"
  else if status_code = 2 then "execution reverted"
  else if status_code = 3 then "out of gas"
  else if status_code = 4 then "invalid instruction"
  else if status_code = 5 then "invalid opcode"
  else if status_code = 6 then "stack overflow"
  else if status_code = 7 then "stack underflow"
  else if status_code = 8 then "invalid jump destination"
  else if status_code = 9 then "invalid memory access"
  else if status_code = 10 then "call depth exceeded"
  else if status_code = 11 then "static mode violation"
  else if status_code = 12 then "precompile failure"
  else if status_code = 13 then "contract validation failure"
  else if status_code = 14 then "argument out of range"
  else if status_code = 15 then "wasm unreachable instruction"
  else if status_code = 16 then "wasm trap"
  else "unknown error code"

/-- Modelled from the spec: big-endian value of the 32-byte word starting
at byte offset `start` of the return data. -/
def word_at (data : List Nat) (start : Nat) : Nat :=
  ((data.drop start).take 32).foldl (fun acc b => acc * 256 + b) 0

/-- Modelled from the spec: ABI revert-reason decoding (§4.6).  The return
data must begin with the 4-byte selector `0x08c379a0` and hold at least 68
bytes; the first word must be the offset 32; the second word is the string
length; at least that many bytes must follow.  Any missing or inconsistent
field yields `none` (fall back to the short form). -/
def decode_error_reason (error_data : List Nat) : Option String :=
  if error_data.length ≥ 68 ∧ error_data.take 4 = [8, 195, 121, 160] ∧
      word_at error_data 4 = 32 then
    if error_data.length ≥ 68 + word_at error_data 36 then
      some (String.mk (((error_data.drop 68).take (word_at error_data 36)).map Char.ofNat))
    else none
  else none

/-- Modelled from the spec: `EVMExecutor::get_error_message(status, data,
full_error)` renders the short status message and, when `full_error` is
set and the return data decodes as an ABI revert reason, appends the
decoded string after ": ". -/
def get_error_message (status_code : Int) (error_data : List Nat) (full_error : Bool) : String :=
  match (if full_error then decode_error_reason error_data else none) with
  | some reason => short_error_message status_code ++ ": " ++ reason
  | none => short_error_message status_code

/-- Block header: only the fields the pre-checks consult. -/
structure BlockHeader where
  number : Nat
  base_fee_per_gas : Option Nat

/-- Block wrapper mirroring `silkworm::Block`. -/
structure Block where
  header : BlockHeader

/-- Transaction: the fields the pre-checks consult.  `fromA` is the (already
recovered) sender; `toA` is the optional recipient (`none` means contract creation). -/
structure Transaction where
  fromA : Nat
  toA : Option Nat
  nonce : Nat
  gas_limit : Nat
  max_fee_per_gas : Nat
  max_priority_fee_per_gas : Nat
  value : Nat
  data : List Nat
  deriving DecidableEq

/-- Modelled from the spec: the computed intrinsic gas (21000 base, 32000
more for contract creation, plus per-byte data costs); for the empty
creation transaction of the spec's scenario 3 this is 53000. -/
def intrinsic_gas (data : List Nat) (contract_creation : Bool) : Nat :=
  21000 + (if contract_creation then 32000 else 0) +
    4 * (data.filter (fun b => b = 0)).length +
    16 * (data.filter (fun b => b ≠ 0)).length

/-- Modelled from the spec: the effective gas price paid per gas unit,
`min(max_fee_per_gas, base_fee + max_priority_fee_per_gas)`. -/
def effective_gas_price (txn : Transaction) (base_fee : Nat) : Nat :=
  min txn.max_fee_per_gas (base_fee + txn.max_priority_fee_per_gas)

/-- Result of `EVMExecutor::call`: the in-band error code and optional
pre-check message. -/
structure ExecutionResult where
  error_code : Nat
  pre_check_error : Option String
  deriving DecidableEq

/-- Modelled from the spec (§4.7): the pre-checks of `EVMExecutor::call`,
run in the order pinned by the test expectations (fee checks — active when
the block carries a base fee and the transaction sets a fee field — then
intrinsic gas, then the balance check, which `gas_bailout` skips).  The
sender balance is passed in place of the state lookup; execution after
successful pre-checks is abstracted to the success result with
`error_code = 0`, which is all the claim observes. -/
def EVMExecutor.call (block : Block) (txn : Transaction) (balance : Nat)
    (gas_bailout : Bool) : ExecutionResult :=
  if block.header.base_fee_per_gas.isSome ∧
      (txn.max_fee_per_gas > 0 ∨ txn.max_priority_fee_per_gas > 0) ∧
      txn.max_fee_per_gas < block.header.base_fee_per_gas.getD 0 then
    ⟨1000, some ("fee cap less than block base fee: address " ++ address_to_hex txn.fromA ++
      ", gasFeeCap: " ++ toString txn.max_fee_per_gas ++
      " baseFee: " ++ toString (block.header.base_fee_per_gas.getD 0))⟩
  else if block.header.base_fee_per_gas.isSome ∧
      (txn.max_fee_per_gas > 0 ∨ txn.max_priority_fee_per_gas > 0) ∧
      txn.max_fee_per_gas < txn.max_priority_fee_per_gas then
    ⟨1000, some ("tip higher than fee cap: address " ++ address_to_hex txn.fromA ++
      ", tip: " ++ toString txn.max_priority_fee_per_gas ++
      " gasFeeCap: " ++ toString txn.max_fee_per_gas)⟩
  else if txn.gas_limit < intrinsic_gas txn.data txn.toA.isNone then
    ⟨1000, some ("intrinsic gas too low: have " ++ toString txn.gas_limit ++
      ", want " ++ toString (intrinsic_gas txn.data txn.toA.isNone))⟩
  else if ¬ gas_bailout ∧
      balance < txn.gas_limit * effective_gas_price txn (block.header.base_fee_per_gas.getD 0)
        + txn.value then
    ⟨1000, some ("insufficient funds for gas * price + value: address " ++
      address_to_hex txn.fromA ++ " have " ++ toString balance ++ " want " ++
      toString (txn.gas_limit *
        effective_gas_price txn (block.header.base_fee_per_gas.getD 0) + txn.value))⟩
  else ⟨0, none⟩

/-- Test address 0xa872626373628737383927236382161739290870 used by every
`EVMexecutor` test section. -/
def test_sender : Nat := 0xa872626373628737383927236382161739290870

/-- Empty creation transaction with the test sender (all other fields
zero), as built by `silkworm::Transaction txn{}` plus `txn.from`. -/
def base_txn : Transaction := ⟨test_sender, none, 0, 0, 0, 0, 0, []⟩

/-- Block of height 10000 without a base fee (pre-London), from the
intrinsic-gas test section. -/
def blk_pre_london : Block := ⟨⟨10000, none⟩⟩

/-- Block of height 6000000 with `base_fee_per_gas = 7`. -/
def blk_base7 : Block := ⟨⟨6000000, some 7⟩⟩

/-- Block of height 6000000 with `base_fee_per_gas = 1`. -/
def blk_base1 : Block := ⟨⟨6000000, some 1⟩⟩

/-- Transaction with `max_fee_per_gas = 2`. -/
def txn_fee2 : Transaction := { base_txn with max_fee_per_gas := 2 }

/-- Transaction with `max_fee_per_gas = 2` and
`max_priority_fee_per_gas = 0x18`. -/
def txn_tip : Transaction := { base_txn with max_fee_per_gas := 2, max_priority_fee_per_gas := 24 }

/-- Transaction with `max_fee_per_gas = 2` and `gas_limit = 60000`. -/
def txn_funds : Transaction := { base_txn with max_fee_per_gas := 2, gas_limit := 60000 }

set_option maxHeartbeats 2000000 in
/-- C2: `EVMExecutor::call` surfaces every pre-check failure in-band with
`error_code = 1000` and the specified `pre_check_error` message: the
intrinsic-gas, fee-cap, tip-vs-cap and balance checks at the test inputs
of `evm_executor_test.cpp`, with `gasBailout` skipping the balance check
and yielding success with `error_code = 0`. -/
theorem C2_call_pre_checks :
    (∀ (block : Block) (txn : Transaction) (balance : Nat) (gas_bailout : Bool),
      (EVMExecutor.call block txn balance gas_bailout).pre_check_error.isSome = true →
      (EVMExecutor.call block txn balance gas_bailout).error_code = 1000) ∧
    (EVMExecutor.call blk_pre_london base_txn 0 false =
      ⟨1000, some "intrinsic gas too low: have 0, want 53000"⟩ ∧
    EVMExecutor.call blk_base7 txn_fee2 0 false =
      ⟨1000, some ("fee cap less than block base fee: " ++
        "address 0xa872626373628737383927236382161739290870, gasFeeCap: 2 baseFee: 7")⟩ ∧
    EVMExecutor.call blk_base1 txn_tip 0 false =
      ⟨1000, some ("tip higher than fee cap: " ++
        "address 0xa872626373628737383927236382161739290870, tip: 24 gasFeeCap: 2")⟩ ∧
    EVMExecutor.call blk_base1 txn_funds 0 false =
      ⟨1000, some ("insufficient funds for gas * price + value: " ++
        "address 0xa872626373628737383927236382161739290870 have 0 want 60000")⟩ ∧
    EVMExecutor.call blk_base1 txn_funds 0 true = ⟨0, none⟩) := by
  refine ⟨?_, by decide⟩
  intro block txn balance gas_bailout h
  unfold EVMExecutor.call at h ⊢
  split_ifs at h ⊢ <;> simp_all

/-- Witness for `C2_call_pre_checks`: the in-band conjunct applied to the
intrinsic-gas scenario. -/
theorem C2_call_pre_checks_witness :
    (EVMExecutor.call blk_pre_london base_txn 0 false).error_code = 1000 :=
  C2_call_pre_checks.1 blk_pre_london base_txn 0 false (by decide)

/-- Bytes of the `error_data` fixture of `evm_executor_test.cpp`:
`0x08c379a0 || pad32(0x20) || pad32(0x20) || utf8("Ownable: caller is not
the owner")`, 100 bytes in total. -/
def error_data : List Nat :=
  [8, 195, 121, 160, 0, 0, 0, 0, 0, 0, 0, 0, 0, 0, 0, 0, 0, 0, 0, 0, 0, 0, 0, 0, 0,
   0, 0, 0, 0, 0, 0, 0, 0, 0, 0, 32, 0, 0, 0, 0, 0, 0, 0, 0, 0, 0, 0, 0, 0, 0, 0, 0,
   0, 0, 0, 0, 0, 0, 0, 0, 0, 0, 0, 0, 0, 0, 0, 32, 79, 119, 110, 97, 98, 108, 101, 58, 32, 99,
   97, 108, 108, 101, 114, 32, 105, 115, 32, 110, 111, 116, 32, 116, 104, 101, 32, 111, 119, 110, 101, 114]

/-- Bytes of `short_error_data_1` (truncated selector, 2 bytes). -/
def short_error_data_1 : List Nat := [8, 195]

/-- Bytes of `short_error_data_2` (selector plus truncated offset word,
34 bytes). -/
def short_error_data_2 : List Nat :=
  [8, 195, 121, 160, 0, 0, 0, 0, 0, 0, 0, 0, 0, 0, 0, 0, 0, 0, 0, 0, 0, 0, 0, 0, 0,
   0, 0, 0, 0, 0, 0, 0, 0, 0]

/-- Bytes of `short_error_data_3` (selector, offset word, truncated length
word, 52 bytes). -/
def short_error_data_3 : List Nat :=
  [8, 195, 121, 160, 0, 0, 0, 0, 0, 0, 0, 0, 0, 0, 0, 0, 0, 0, 0, 0, 0, 0, 0, 0, 0,
   0, 0, 0, 0, 0, 0, 0, 0, 0, 0, 32, 0, 0, 0, 0, 0, 0, 0, 0, 0, 0, 0, 0, 0, 0, 0, 0]

/-- Bytes of `short_error_data_4` (selector, offset word, length word 32,
but only 19 string bytes; 87 bytes in total). -/
def short_error_data_4 : List Nat :=
  [8, 195, 121, 160, 0, 0, 0, 0, 0, 0, 0, 0, 0, 0, 0, 0, 0, 0, 0, 0, 0, 0, 0, 0, 0,
   0, 0, 0, 0, 0, 0, 0, 0, 0, 0, 32, 0, 0, 0, 0, 0, 0, 0, 0, 0, 0, 0, 0, 0, 0, 0, 0,
   0, 0, 0, 0, 0, 0, 0, 0, 0, 0, 0, 0, 0, 0, 0, 32, 79, 119, 110, 97, 98, 108, 101, 58, 32, 99,
   97, 108, 108, 101, 114, 32, 105, 115, 32]

set_option maxHeartbeats 2000000 in
/-- C3: the claim as stated is false.  With status revert (code 2) and the
decode flag set, the full `error_data` decodes to
"execution reverted: Ownable: caller is not the owner" — the short form is
chosen by the status, so the claimed message
"execution failed: Ownable: caller is not the owner" belongs to the
failure status (code 1), as the test file's expectations show. -/
theorem C3_counterexample :
    get_error_message 2 error_data true =
      "execution reverted: Ownable: caller is not the owner" ∧
    get_error_message 2 error_data true ≠
      "execution failed: Ownable: caller is not the owner" := by
  constructor <;> decide

set_option maxHeartbeats 2000000 in
/-- C3 (amended): with status failure (code 1) and the decode flag, the
full `error_data` yields "execution failed: Ownable: caller is not the
owner"; the same input with the decode flag false yields
"execution failed"; every truncated fixture and, in general, every input
with a missing or inconsistent field yields the short-form message
without decoding. -/
theorem C3_revert_reason_decoding :
    (get_error_message 1 error_data true =
      "execution failed: Ownable: caller is not the owner" ∧
    get_error_message 1 error_data false = "execution failed" ∧
    get_error_message 1 short_error_data_1 true = "execution failed" ∧
    get_error_message 1 short_error_data_2 true = "execution failed" ∧
    get_error_message 1 short_error_data_3 true = "execution failed" ∧
    get_error_message 1 short_error_data_4 true = "execution failed") ∧
    (∀ (status_code : Int) (data : List Nat),
      (data.length < 68 ∨ data.take 4 ≠ [8, 195, 121, 160] ∨ word_at data 4 ≠ 32 ∨
        data.length < 68 + word_at data 36) →
      get_error_message status_code data true = short_error_message status_code) := by
  refine ⟨by decide, ?_⟩
  intro status_code data h
  have hd : decode_error_reason data = none := by
    unfold decode_error_reason
    rcases h with h | h | h | h
    · exact if_neg (fun hc => absurd hc.1 (by omega))
    · exact if_neg (fun hc => h hc.2.1)
    · exact if_neg (fun hc => h hc.2.2)
    · by_cases hc : data.length ≥ 68 ∧ data.take 4 = [8, 195, 121, 160] ∧
        word_at data 4 = 32
      · rw [if_pos hc, if_neg (by omega)]
      · rw [if_neg hc]
  simp [get_error_message, hd]

/-- Witness for `C3_revert_reason_decoding`: the fallback conjunct at the
2-byte truncated input. -/
theorem C3_revert_reason_decoding_witness :
    get_error_message 1 [8, 195] true = short_error_message 1 :=
  C3_revert_reason_decoding.2 1 [8, 195] (by decide)

set_option maxHeartbeats 8000000 in
/-- C5: the closed status-to-message mapping, evaluated exactly as the
`get_error_message` test sections do (decode flag false, the test
`error_data` as return data), plus the catch-all for any status outside
the known range 0–16. -/
theorem C5_error_message_mapping :
    (get_error_message 2 error_data false = "execution reverted" ∧
    get_error_message 3 error_data false = "out of gas" ∧
    get_error_message 4 error_data false = "invalid instruction" ∧
    get_error_message 5 error_data false = "invalid opcode" ∧
    get_error_message 6 error_data false = "stack overflow" ∧
    get_error_message 7 error_data false = "stack underflow" ∧
    get_error_message 8 error_data false = "invalid jump destination" ∧
    get_error_message 9 error_data false = "invalid memory access" ∧
    get_error_message 10 error_data false = "call depth exceeded" ∧
    get_error_message 11 error_data false = "static mode violation" ∧
    get_error_message 12 error_data false = "precompile failure" ∧
    get_error_message 13 error_data false = "contract validation failure" ∧
    get_error_message 14 error_data false = "argument out of range" ∧
    get_error_message 15 error_data false = "wasm unreachable instruction" ∧
    get_error_message 16 error_data false = "wasm trap" ∧
    get_error_message 1 error_data false = "execution failed" ∧
    get_error_message 8888 error_data false = "unknown error code") ∧
    (∀ status_code : Int, status_code < 0 ∨ 16 < status_code →
      ∀ data : List Nat, get_error_message status_code data false = "unknown error code") := by
  refine ⟨by decide, ?_⟩
  intro status_code hs data
  show short_error_message status_code = "unknown error code"
  unfold short_error_message
  iterate 17 rw [if_neg (by omega)]

/-- Witness for `C5_error_message_mapping`: the catch-all conjunct at the
test's out-of-range status 8888. -/
theorem C5_error_message_mapping_witness :
    get_error_message 8888 [] false = "unknown error code" :=
  C5_error_message_mapping.2 8888 (by omega) []

/-! ## Chain accessors

The implementation file of the rawdb chain accessors is not under `src/`
(only its test, `src/silkrpc/core/rawdb/chain_test.cpp`, is), so the
definitions of this section are modelled from the specification (§4.3),
with the error message and boundary behaviours pinned by that test file's
expectations. -/

/-- Raw receipt as decoded from the block-receipts table, before the
derived fields are attached. -/
structure RawReceipt where
  cumulative_gas_used : Nat
  deriving DecidableEq

/-- Receipt after `read_receipts` attached the derived fields.  The
contract address of a creation receipt is derived from the transaction's
sender and nonce, modelled as that pair. -/
structure Receipt where
  cumulative_gas_used : Nat
  tx_index : Nat
  gas_used : Nat
  contract_address : Option (Nat × Nat)
  deriving DecidableEq

/-- Modelled from the spec: the derivation loop of `read_receipts`, which
walks receipts and transactions in lockstep carrying the position and the
previous cumulative gas. -/
def derive_receipts : Nat → Nat → List RawReceipt → List Transaction → List Receipt
  | _, _, [], _ => []
  | _, _, _ :: _, [] => []
  | idx, prev_cumulative, r :: rs, t :: ts =>
    { cumulative_gas_used := r.cumulative_gas_used
      tx_index := idx
      gas_used := r.cumulative_gas_used - prev_cumulative
      contract_address := if t.toA.isNone then some (t.fromA, t.nonce) else none } ::
    derive_receipts (idx + 1) r.cumulative_gas_used rs ts

/-- Modelled from the spec: `read_receipts(block_with_hash)` takes the
block's transactions and the raw receipts read for the block, fails hard
when the counts disagree (the exception message is pinned by the test
"zero receipts w/ non-zero transactions"), and otherwise attaches the
derived fields. -/
def read_receipts (txs : List Transaction) (raw : List RawReceipt) :
    Except String (List Receipt) :=
  if txs.length ≠ raw.length then
    .error "#transactions and #receipts do not match in read_receipts"
  else .ok (derive_receipts 0 0 raw txs)

lemma derive_receipts_length (idx prev : Nat) (raw : List RawReceipt)
    (txs : List Transaction) :
    (derive_receipts idx prev raw txs).length = min raw.length txs.length := by
  induction raw generalizing idx prev txs with
  | nil => simp [derive_receipts]
  | cons r rs ih =>
    cases txs with
    | nil => simp [derive_receipts]
    | cons t ts =>
      simp only [derive_receipts, List.length_cons, ih]
      omega

/-- C6: `read_receipts` fails with a hard error exactly when the number of
transactions differs from the number of stored receipts, and otherwise
returns exactly one receipt per transaction — never a partial or padded
list. -/
theorem C6_read_receipts (txs : List Transaction) (raw : List RawReceipt) :
    (txs.length ≠ raw.length →
      read_receipts txs raw =
        .error "#transactions and #receipts do not match in read_receipts") ∧
    (txs.length = raw.length →
      ∃ receipts, read_receipts txs raw = .ok receipts ∧
        receipts.length = txs.length) := by
  constructor
  · intro h
    unfold read_receipts
    rw [if_pos h]
  · intro h
    refine ⟨derive_receipts 0 0 raw txs, ?_, ?_⟩
    · unfold read_receipts
      rw [if_neg (by omega)]
    · rw [derive_receipts_length]
      omega

/-- Witness for `C6_read_receipts`: one transaction with zero receipts is
the hard error of the test; one transaction with one receipt yields one
receipt. -/
theorem C6_read_receipts_witness :
    read_receipts [base_txn] [] =
      .error "#transactions and #receipts do not match in read_receipts" ∧
    ∃ receipts, read_receipts [base_txn] [⟨21000⟩] = .ok receipts ∧
      receipts.length = 1 :=
  ⟨(C6_read_receipts [base_txn] []).1 (by decide),
   (C6_read_receipts [base_txn] [⟨21000⟩]).2 (by decide)⟩

/-- Modelled from the spec: the walk body shared by the canonical and
non-canonical transaction readers.  Each walked entry is the outcome of
`silkworm::rlp::decode` on the stored value (`none` for a malformed
entry, the RLP codec itself being out of scope per §1); on a decode
failure the accumulated vector is cleared and the walk stops; otherwise
the walk continues while fewer than `txn_count` entries are collected. -/
def collect_transactions (txn_count : Nat) :
    List (Option Transaction) → List Transaction → List Transaction
  | [], acc => acc
  | none :: _, _ => []
  | some t :: rest, acc =>
    if (acc ++ [t]).length < txn_count then collect_transactions txn_count rest (acc ++ [t])
    else acc ++ [t]

/-- Modelled from the spec: `read_canonical_transactions(base_txn_id,
txn_count)` returns the empty list immediately for `txn_count = 0`,
otherwise walks the `EthTx` table entries. -/
def read_canonical_transactions (txn_count : Nat)
    (entries : List (Option Transaction)) : List Transaction :=
  if txn_count = 0 then [] else collect_transactions txn_count entries []

/-- Modelled from the spec: `read_noncanonical_transactions`, identical to
the canonical walk but over the `NonCanonicalTx` table. -/
def read_noncanonical_transactions (txn_count : Nat)
    (entries : List (Option Transaction)) : List Transaction :=
  if txn_count = 0 then [] else collect_transactions txn_count entries []

lemma collect_transactions_failure (txn_count : Nat)
    (good post : List (Option Transaction)) (acc : List Transaction)
    (hgood : ∀ e ∈ good, e.isSome)
    (hlen : acc.length + good.length < txn_count) :
    collect_transactions txn_count (good ++ none :: post) acc = [] := by
  induction good generalizing acc with
  | nil => simp [collect_transactions]
  | cons e rest ih =>
    obtain ⟨t, rfl⟩ := Option.isSome_iff_exists.mp (hgood e (List.mem_cons_self _ _))
    have hlen2 : acc.length + 1 + rest.length < txn_count := by
      simp only [List.length_cons] at hlen
      omega
    simp only [List.cons_append, collect_transactions]
    rw [if_pos (by
      simp only [List.length_append, List.length_cons, List.length_nil]
      omega)]
    exact ih (acc ++ [t]) (fun x hx => hgood x (List.mem_cons_of_mem _ hx))
      (by
        simp only [List.length_append, List.length_cons, List.length_nil]
        omega)

/-- C7: both transaction walks return the empty list for a zero count, and
whenever a walked entry fails RLP decoding (all entries before it decode
and the count is not yet reached, so the walk does reach it) the result
is the empty list, never a partial list. -/
theorem C7_transaction_walks :
    (∀ entries, read_canonical_transactions 0 entries = []) ∧
    (∀ entries, read_noncanonical_transactions 0 entries = []) ∧
    (∀ (txn_count : Nat) (good post : List (Option Transaction)),
      (∀ e ∈ good, e.isSome) → good.length < txn_count →
      read_canonical_transactions txn_count (good ++ none :: post) = []) ∧
    (∀ (txn_count : Nat) (good post : List (Option Transaction)),
      (∀ e ∈ good, e.isSome) → good.length < txn_count →
      read_noncanonical_transactions txn_count (good ++ none :: post) = []) := by
  refine ⟨fun entries => rfl, fun entries => rfl, ?_, ?_⟩ <;>
  · intro txn_count good post hgood hlen
    first
      | unfold read_canonical_transactions
      | unfold read_noncanonical_transactions
    rw [if_neg (by omega)]
    exact collect_transactions_failure txn_count good post [] hgood (by simpa using hlen)

/-- Witness for `C7_transaction_walks`: the "one transaction bad RLP" test
input (count 1, single malformed entry) yields the empty list on both
walks. -/
theorem C7_transaction_walks_witness :
    read_canonical_transactions 1 [none] = [] ∧
    read_noncanonical_transactions 1 [none] = [] :=
  ⟨C7_transaction_walks.2.2.1 1 [] [] (by decide) (by decide),
   C7_transaction_walks.2.2.2 1 [] [] (by decide) (by decide)⟩

/-- Modelled from the spec: `silkworm::to_bytes32`, as pinned by the
"shorter hash bytes" and "longer hash bytes" sections of
`chain_test.cpp`: the first `min(len, 32)` bytes of the stored value are
right-aligned into a zero-filled 32-byte hash. -/
def to_bytes32 (bytes : List Nat) : List Nat :=
  List.replicate (32 - min bytes.length 32) 0 ++ bytes.take 32

/-- Modelled from the spec: `read_canonical_block_hash(height)` reads the
stored canonical-hash value; an empty value raises `std::invalid_argument`
(modelled as `none`), any other value is converted with
`silkworm::to_bytes32`. -/
def read_canonical_block_hash (stored : List Nat) : Option (List Nat) :=
  if stored.isEmpty then none else some (to_bytes32 stored)

/-- Bytes of the 31-byte stored value of the "shorter hash bytes" test
section. -/
def k31 : List Nat :=
  [152, 22, 117, 50, 41, 252, 7, 54, 191, 134, 165, 4, 141, 228, 188, 159,
   205, 237, 232, 201, 29, 173, 248, 140, 130, 140, 118, 178, 40, 29, 255]

/-- Bytes of the 35-byte stored value of the "longer hash bytes" test
section. -/
def k35 : List Nat :=
  [67, 152, 22, 117, 50, 41, 252, 7, 54, 191, 134, 165, 4, 141, 228, 188,
   159, 205, 237, 232, 201, 29, 173, 248, 140, 130, 140, 118, 178, 40, 29,
   255, 171, 205, 239]

/-- C8: the claim as stated is false.  The "shorter hash bytes" test feeds
a 31-byte stored value and expects the hash
`0x009816…dff` — the value is silently zero-padded on the left rather
than rejected (and a 35-byte value is truncated, not rejected). -/
theorem C8_counterexample :
    read_canonical_block_hash k31 = some (0 :: k31) ∧
    read_canonical_block_hash k31 ≠ none ∧
    read_canonical_block_hash k35 = some (k35.take 32) := by
  decide

/-- C8 (amended): `read_canonical_block_hash` rejects only the empty
stored value; a stored value shorter than 32 bytes is zero-padded on the
left into a 32-byte hash, a longer one is truncated to its first 32
bytes, and every accepted value yields exactly 32 bytes. -/
theorem C8_canonical_hash (stored : List Nat) :
    (stored = [] → read_canonical_block_hash stored = none) ∧
    (stored ≠ [] → stored.length ≤ 32 →
      read_canonical_block_hash stored =
        some (List.replicate (32 - stored.length) 0 ++ stored)) ∧
    (stored ≠ [] → 32 ≤ stored.length →
      read_canonical_block_hash stored = some (stored.take 32)) ∧
    (stored ≠ [] → ∃ h32, read_canonical_block_hash stored = some h32 ∧
      h32.length = 32) := by
  refine ⟨?_, ?_, ?_, ?_⟩
  · intro h
    simp [read_canonical_block_hash, h]
  · intro h hle
    have : stored.take 32 = stored := List.take_of_length_le hle
    simp [read_canonical_block_hash, List.isEmpty_iff, h, to_bytes32, this,
      min_eq_left hle]
  · intro h hge
    have hmin : min stored.length 32 = 32 := min_eq_right hge
    simp [read_canonical_block_hash, List.isEmpty_iff, h, to_bytes32, hmin]
  · intro h
    refine ⟨to_bytes32 stored, by simp [read_canonical_block_hash, List.isEmpty_iff, h], ?_⟩
    simp [to_bytes32, List.length_take]
    omega

/-- Witness for `C8_canonical_hash` at the test vectors: the 31-byte value
is padded, the 35-byte value truncated, the empty value rejected. -/
theorem C8_canonical_hash_witness :
    read_canonical_block_hash [] = none ∧
    read_canonical_block_hash k31 = some (List.replicate 1 0 ++ k31) ∧
    read_canonical_block_hash k35 = some (k35.take 32) :=
  ⟨(C8_canonical_hash []).1 rfl,
   (C8_canonical_hash k31).2.1 (by decide) (by decide),
   (C8_canonical_hash k35).2.2.1 (by decide) (by decide)⟩

end Silkrpc
